import Mathlib

/-!
Shallow embedding of the Internship-tracker Express/SQLite server
(source file `server.js`, served under `src/unnamed/part_005`).

The relational store is modelled as explicit lists of rows; each HTTP
endpoint becomes a pure function from the database state (plus the
authenticated caller and the request body) to a response, the new
database state, and the list of socket.io broadcast events the handler
emits.  JavaScript truthiness on ids (`!company_id`) and on strings
(`!request_text`) is modelled explicitly, as is the `x || null`
normalisation the handlers apply to optional body fields.
-/

namespace InternshipTracker

/-- Broadcast event kinds emitted over socket.io: `applications:changed`
(`emitApplicationsChanged`), `openings:changed` (`emitOpeningsChanged`)
and `admin:changed` (emitted by `logAudit` whenever `io` is attached,
which holds once the server has started). -/
inductive Event where
  | applicationsChanged
  | openingsChanged
  | adminChanged
deriving DecidableEq, Repr

/-- HTTP response: `ok` carries the JSON status tag the handler sends,
`err` carries the HTTP status code and error message. -/
inductive Resp where
  | ok (payload : String)
  | err (code : Nat) (msg : String)
deriving DecidableEq, Repr

/-- Row of the `applications` table. -/
structure Application where
  id : Nat
  student_id : Nat
  company_id : Nat
  position : Option String
  department : Option String
  why_internship : Option String
  skills_fit : Option String
  career_goals : Option String
  relevant_experience : Option String
  stage : String
  notes : Option String
deriving DecidableEq, Repr

/-- Row of the `application_requests` table (one per application_id,
UNIQUE).  `request_text` is always written by the handlers with a
concrete string, `response_text` is nullable.  `updated_at` models the
`datetime('now')` column as an abstract clock value. -/
structure ClarificationRequest where
  application_id : Nat
  request_text : String
  response_text : Option String
  updated_at : Nat
deriving DecidableEq, Repr

/-- Row of the `company_openings` table. -/
structure Opening where
  id : Nat
  company_id : Nat
  department : String
  role_title : Option String
  expectations : String
  slots : Option String
  location : Option String
  deadline : Option String
deriving DecidableEq, Repr

/-- Row of the `company_interviews` table (one per application_id,
UNIQUE). -/
structure InterviewSlot where
  company_id : Nat
  application_id : Nat
  interview_date : Option String
  interview_time : Option String
  mode : Option String
  location : Option String
deriving DecidableEq, Repr

/-- The database state: the tables the verified endpoints touch.
`students` and `companies` are kept as lists of primary keys (the other
columns play no role in the claims).  `nextAppId` and `nextOpeningId`
model the AUTOINCREMENT counters. -/
structure DB where
  students : List Nat
  companies : List Nat
  subscriptions : List (Nat × Nat)
  openings : List Opening
  applications : List Application
  requests : List ClarificationRequest
  interviews : List InterviewSlot
  nextAppId : Nat
  nextOpeningId : Nat
deriving DecidableEq, Repr

/-- The authenticated caller as produced by `authenticateToken`:
`req.user` with `userId`, `role`, and the optional linked
`studentId` / `companyId`. -/
structure User where
  userId : Nat
  role : String
  studentId : Option Nat
  companyId : Option Nat
deriving DecidableEq, Repr

/-- JavaScript truthiness of an optional numeric id: `null`/`undefined`
and `0` are falsy. -/
def truthyId : Option Nat → Bool
  | none => false
  | some n => n != 0

/-- JavaScript truthiness of an optional string: `null`/`undefined` and
the empty string are falsy. -/
def truthyStr : Option String → Bool
  | none => false
  | some s => s != ""

/-- Models the `x || null` idiom on an optional string body field:
a falsy value is stored as NULL. -/
def strOrNull : Option String → Option String
  | none => none
  | some s => if s = "" then none else some s

/-- Models `a || b` for an optional string with a string default. -/
def jsOr (a : Option String) (b : String) : String :=
  match a with
  | none => b
  | some s => if s = "" then b else s

/-- Body of POST /api/applications. -/
structure CreateAppBody where
  company_id : Option Nat
  position : Option String
  department : Option String
  why_internship : Option String
  skills_fit : Option String
  career_goals : Option String
  relevant_experience : Option String
deriving DecidableEq, Repr

/-- The fresh `applications` row inserted by POST /api/applications for
student `sid` applying to company `cid`:
`position` is `position || department || ''`, the essay fields are
stored with `x || null`, and the stage is the literal `'Applied'`. -/
def newApplicationRow (db : DB) (sid cid : Nat) (b : CreateAppBody) : Application :=
  { id := db.nextAppId
    student_id := sid
    company_id := cid
    position := some (jsOr b.position (jsOr b.department ""))
    department := strOrNull b.department
    why_internship := strOrNull b.why_internship
    skills_fit := strOrNull b.skills_fit
    career_goals := strOrNull b.career_goals
    relevant_experience := strOrNull b.relevant_experience
    stage := "Applied"
    notes := none }

/-- The rejection lock checked by POST /api/applications
(`SELECT 1 FROM applications WHERE student_id = ? AND company_id = ? AND stage = 'Rejected'`):
some prior application of `sid` to `cid` is in stage `Rejected`. -/
def rejectionLock (db : DB) (sid cid : Nat) : Prop :=
  ∃ a ∈ db.applications, a.student_id = sid ∧ a.company_id = cid ∧ a.stage = "Rejected"

instance (db : DB) (sid cid : Nat) : Decidable (rejectionLock db sid cid) := by
  unfold rejectionLock
  infer_instance

/-- POST /api/applications (authenticateToken, authorizeRole(["student"])).
Checks the student link, the body `company_id`, the subscription
prerequisite, then the rejection lock, and only then inserts the new row
(stage `'Applied'`) and emits `applications:changed`. -/
def createApplication (db : DB) (user : User) (b : CreateAppBody) :
    Resp × DB × List Event :=
  if user.role ≠ "student" then (.err 403 "Forbidden", db, [])
  else if ¬ truthyId user.studentId then
    (.err 400 "Student profile not linked to account", db, [])
  else if ¬ truthyId b.company_id then (.err 400 "company_id required", db, [])
  else
    let sid := user.studentId.getD 0
    let cid := b.company_id.getD 0
    if (sid, cid) ∉ db.subscriptions then
      (.err 403 "Subscribe to this company before applying", db, [])
    else if rejectionLock db sid cid then
      (.err 403 "You cannot reapply to this company in the current cycle after a rejection.", db, [])
    else
      let row := newApplicationRow db sid cid b
      (.ok "applied",
       { db with applications := db.applications ++ [row],
                 nextAppId := db.nextAppId + 1 },
       [.applicationsChanged])

/-- The ownership check of PATCH /api/applications/:id/status and
PATCH /api/applications/:id (`allowed`): admin, or the company owning
the row, or the student owning the row.  The id comparisons mirror the
JavaScript `req.user.companyId && req.user.companyId === row.company_id`
pattern (truthiness first, then strict equality). -/
def ownsApplication (user : User) (row : Application) : Prop :=
  user.role = "admin" ∨
  (user.role = "company" ∧ truthyId user.companyId ∧
    user.companyId = some row.company_id) ∨
  (user.role = "student" ∧ truthyId user.studentId ∧
    user.studentId = some row.student_id)

instance (user : User) (row : Application) : Decidable (ownsApplication user row) := by
  unfold ownsApplication
  infer_instance

/-- PATCH /api/applications/:id/status (authenticateToken only).
After the `stage required` check and the row lookup, the only guard is
`ownsApplication`; the requested stage string is then written verbatim
(`UPDATE applications SET stage = ?`) with no transition validation, and
the handler runs `logAudit` (emitting `admin:changed`) followed by
`emitApplicationsChanged`. -/
def patchApplicationStatus (db : DB) (user : User) (id : Nat)
    (stage : Option String) : Resp × DB × List Event :=
  if ¬ truthyStr stage then (.err 400 "stage required", db, [])
  else
    match db.applications.find? (fun a => a.id == id) with
    | none => (.err 404 "Not found", db, [])
    | some row =>
      if ¬ ownsApplication user row then (.err 403 "Forbidden", db, [])
      else
        let s := stage.getD ""
        (.ok "updated",
         { db with applications :=
             db.applications.map (fun a => if a.id = id then { a with stage := s } else a) },
         [.adminChanged, .applicationsChanged])

/-- Body of PATCH /api/applications/:id: a field that is `none` was
absent from the request (`typeof x === 'undefined'`); a present field is
normalised with `x || null` before being stored. -/
structure PatchAppBody where
  notes : Option String
  position : Option String
  department : Option String
  why_internship : Option String
  skills_fit : Option String
  career_goals : Option String
  relevant_experience : Option String
deriving DecidableEq, Repr

/-- Applies one optional body field to the stored column: absent fields
leave the column alone, present fields overwrite it with `x || null`. -/
def applyField (cur : Option String) (v : Option String) : Option String :=
  match v with
  | none => cur
  | some s => strOrNull (some s)

/-- Whether PATCH /api/applications/:id received at least one updatable
field (otherwise it answers `400 No fields to update`). -/
def PatchAppBody.hasField (b : PatchAppBody) : Prop :=
  b.notes.isSome ∨ b.position.isSome ∨ b.department.isSome ∨
  b.why_internship.isSome ∨ b.skills_fit.isSome ∨ b.career_goals.isSome ∨
  b.relevant_experience.isSome

instance (b : PatchAppBody) : Decidable b.hasField := by
  unfold PatchAppBody.hasField
  infer_instance

/-- The row produced by PATCH /api/applications/:id from the present
body fields (stage, ids and timestamps are untouched). -/
def patchRow (b : PatchAppBody) (a : Application) : Application :=
  { a with
    notes := applyField a.notes b.notes
    position := applyField a.position b.position
    department := applyField a.department b.department
    why_internship := applyField a.why_internship b.why_internship
    skills_fit := applyField a.skills_fit b.skills_fit
    career_goals := applyField a.career_goals b.career_goals
    relevant_experience := applyField a.relevant_experience b.relevant_experience }

/-- PATCH /api/applications/:id (authenticateToken only).  Looks up the
row, checks `ownsApplication` (admin / owning student / owning company),
requires at least one present field, updates exactly the present fields
(never the stage — there is no stage check anywhere in the handler), and
emits `admin:changed` (via `logAudit`) then `applications:changed`. -/
def patchApplication (db : DB) (user : User) (id : Nat) (b : PatchAppBody) :
    Resp × DB × List Event :=
  match db.applications.find? (fun a => a.id == id) with
  | none => (.err 404 "Not found", db, [])
  | some row =>
    if ¬ ownsApplication user row then (.err 403 "Forbidden", db, [])
    else if ¬ b.hasField then (.err 400 "No fields to update", db, [])
    else
      (.ok "updated",
       { db with applications :=
           db.applications.map (fun a => if a.id = id then patchRow b a else a) },
       [.adminChanged, .applicationsChanged])

/-- The clarification thread attached to application `id`: the first (and,
under the UNIQUE(application_id) index, only) `application_requests` row
for it, as read by `db.get`. -/
def threadOf (db : DB) (id : Nat) : Option ClarificationRequest :=
  db.requests.find? (fun r => r.application_id == id)

/-- POST /api/applications/:id/request (authenticateToken only).  Requires
a truthy `request_text`, role company or admin, an existing application
owned by the caller; then upserts the thread row, overwriting
`request_text`, clearing `response_text` to NULL and bumping
`updated_at`, and emits a single `applications:changed`. -/
def sendRequest (db : DB) (user : User) (id : Nat)
    (request_text : Option String) (now : Nat) : Resp × DB × List Event :=
  if ¬ truthyStr request_text then (.err 400 "request_text required", db, [])
  else if user.role ≠ "company" ∧ user.role ≠ "admin" then
    (.err 403 "Forbidden", db, [])
  else
    match db.applications.find? (fun a => a.id == id) with
    | none => (.err 404 "Not found", db, [])
    | some appRow =>
      if ¬ (user.role = "admin" ∨
            (user.role = "company" ∧ truthyId user.companyId ∧
              user.companyId = some appRow.company_id)) then
        (.err 403 "Forbidden", db, [])
      else
        let txt := request_text.getD ""
        match threadOf db id with
        | some _ =>
          (.ok "updated",
           { db with requests :=
               db.requests.map (fun r =>
                 if r.application_id = id then
                   { r with request_text := txt, response_text := none, updated_at := now }
                 else r) },
           [.applicationsChanged])
        | none =>
          (.ok "created",
           { db with requests := db.requests ++
               [{ application_id := id, request_text := txt,
                  response_text := none, updated_at := now }] },
           [.applicationsChanged])

/-- PATCH /api/applications/:id/request-response (authenticateToken only).
Requires a truthy `response_text`, role student with a linked profile,
an existing application owned by the caller, and an existing thread row;
then writes `response_text` and bumps `updated_at`, and emits a single
`applications:changed`. -/
def respondToRequest (db : DB) (user : User) (id : Nat)
    (response_text : Option String) (now : Nat) : Resp × DB × List Event :=
  if ¬ truthyStr response_text then (.err 400 "response_text required", db, [])
  else if user.role ≠ "student" ∨ ¬ truthyId user.studentId then
    (.err 403 "Forbidden", db, [])
  else
    match db.applications.find? (fun a => a.id == id) with
    | none => (.err 404 "Not found", db, [])
    | some appRow =>
      if user.studentId ≠ some appRow.student_id then (.err 403 "Forbidden", db, [])
      else
        match threadOf db id with
        | none => (.err 404 "Request not found", db, [])
        | some _ =>
          (.ok "updated",
           { db with requests :=
               db.requests.map (fun r =>
                 if r.application_id = id then
                   { r with response_text := some (response_text.getD ""),
                            updated_at := now }
                 else r) },
           [.applicationsChanged])

/-- POST /api/subscriptions (authenticateToken, authorizeRole(["student"])).
`INSERT OR IGNORE` against the UNIQUE(student_id, company_id) index: a
duplicate pair inserts nothing.  `logAudit` emits `admin:changed`. -/
def subscribe (db : DB) (user : User) (company_id : Option Nat) :
    Resp × DB × List Event :=
  if user.role ≠ "student" then (.err 403 "Forbidden", db, [])
  else if ¬ truthyId user.studentId then
    (.err 400 "Student profile not linked to account", db, [])
  else if ¬ truthyId company_id then (.err 400 "company_id required", db, [])
  else
    let sid := user.studentId.getD 0
    let cid := company_id.getD 0
    (.ok "subscribed",
     { db with subscriptions :=
         if (sid, cid) ∈ db.subscriptions then db.subscriptions
         else db.subscriptions ++ [(sid, cid)] },
     [.adminChanged])

/-- DELETE /api/subscriptions/:companyId (authenticateToken,
authorizeRole(["student"])).  Deletes the matching rows (zero rows
affected is still a 200) and touches no other table.  `logAudit` emits
`admin:changed`. -/
def unsubscribe (db : DB) (user : User) (companyId : Nat) :
    Resp × DB × List Event :=
  if user.role ≠ "student" then (.err 403 "Forbidden", db, [])
  else if ¬ truthyId user.studentId then
    (.err 400 "Student profile not linked to account", db, [])
  else
    let sid := user.studentId.getD 0
    (.ok "unsubscribed",
     { db with subscriptions :=
         db.subscriptions.filter (fun p => ¬ (p.1 = sid ∧ p.2 = companyId)) },
     [.adminChanged])

/-- GET /api/openings (authenticateToken only).  Both branches join
`company_openings` with `companies`; the student branch additionally
joins `student_company_subscriptions` on the caller's linked student id.
Under the primary-key / UNIQUE indices the join is the filter below. -/
def listOpenings (db : DB) (user : User) : Resp × List Opening :=
  if user.role = "student" then
    if ¬ truthyId user.studentId then
      (.err 400 "Student profile not linked to account", [])
    else
      let sid := user.studentId.getD 0
      (.ok "openings",
       db.openings.filter (fun o =>
         o.company_id ∈ db.companies ∧ (sid, o.company_id) ∈ db.subscriptions))
  else
    (.ok "openings", db.openings.filter (fun o => o.company_id ∈ db.companies))

/-- Body of POST /api/company-openings. -/
structure OpeningBody where
  company_id : Option Nat
  department : Option String
  role_title : Option String
  expectations : Option String
  slots : Option String
  location : Option String
  deadline : Option String
deriving DecidableEq, Repr

/-- POST /api/company-openings (authenticateToken only).  Role company or
admin; the target company id is the caller's for a company, the body's
for an admin; `department` and `expectations` are required; on success
`logAudit` emits `admin:changed`, then `emitOpeningsChanged` fires
(the subscriber e-mail fan-out sends no broadcast). -/
def createOpening (db : DB) (user : User) (b : OpeningBody) :
    Resp × DB × List Event :=
  if user.role ≠ "company" ∧ user.role ≠ "admin" then (.err 403 "Forbidden", db, [])
  else
    let companyId := if user.role = "admin" then b.company_id else user.companyId
    if ¬ truthyId companyId then (.err 400 "company_id required", db, [])
    else if ¬ truthyStr b.department ∨ ¬ truthyStr b.expectations then
      (.err 400 "department and expectations required", db, [])
    else
      let row : Opening :=
        { id := db.nextOpeningId
          company_id := companyId.getD 0
          department := b.department.getD ""
          role_title := strOrNull b.role_title
          expectations := b.expectations.getD ""
          slots := strOrNull b.slots
          location := strOrNull b.location
          deadline := strOrNull b.deadline }
      (.ok "created",
       { db with openings := db.openings ++ [row],
                 nextOpeningId := db.nextOpeningId + 1 },
       [.adminChanged, .openingsChanged])

/-- DELETE /api/company-openings/:id (authenticateToken only).  Looks up
the row, allows admin or the owning company, deletes it; `logAudit`
emits `admin:changed` and nothing else is broadcast. -/
def deleteOpening (db : DB) (user : User) (id : Nat) : Resp × DB × List Event :=
  match db.openings.find? (fun o => o.id == id) with
  | none => (.err 404 "Not found", db, [])
  | some row =>
    if ¬ (user.role = "admin" ∨
          (user.role = "company" ∧ truthyId user.companyId ∧
            user.companyId = some row.company_id)) then
      (.err 403 "Forbidden", db, [])
    else
      (.ok "deleted",
       { db with openings := db.openings.filter (fun o => o.id ≠ id) },
       [.adminChanged])

/-- DELETE /api/:type/:id — the generic delete route.  It is registered
with NO middleware at all (`app.delete('/api/:type/:id', (req, res) => ...)`),
so the (possibly absent) caller identity is taken as a parameter and
never consulted: `const table = type === 'students' ? 'students' : 'companies'`
then `DELETE FROM <table> WHERE id = ?`. -/
def genericDelete (_auth : Option User) (db : DB) (ty : String) (id : Nat) :
    Resp × DB :=
  if ty = "students" then
    (.ok "Deleted", { db with students := db.students.filter (fun s => s ≠ id) })
  else
    (.ok "Deleted", { db with companies := db.companies.filter (fun c => c ≠ id) })

/-- One mutating operation on the Application / ClarificationRequest /
Opening collections, taken from the endpoints modelled above. -/
inductive Mutation where
  | create (user : User) (b : CreateAppBody)
  | setStage (user : User) (id : Nat) (stage : Option String)
  | editApp (user : User) (id : Nat) (b : PatchAppBody)
  | sendReq (user : User) (id : Nat) (text : Option String) (now : Nat)
  | respond (user : User) (id : Nat) (text : Option String) (now : Nat)
  | addOpening (user : User) (b : OpeningBody)
  | removeOpening (user : User) (id : Nat)
deriving DecidableEq, Repr

/-- Dispatches a mutating operation to its endpoint. -/
def applyMutation (db : DB) : Mutation → Resp × DB × List Event
  | .create user b => createApplication db user b
  | .setStage user id stage => patchApplicationStatus db user id stage
  | .editApp user id b => patchApplication db user id b
  | .sendReq user id text now => sendRequest db user id text now
  | .respond user id text now => respondToRequest db user id text now
  | .addOpening user b => createOpening db user b
  | .removeOpening user id => deleteOpening db user id

/-- Sample application row (student 10 applying to company 20) at a given
stage, used to instantiate witnesses and counterexamples. -/
def sampleApp (st : String) : Application :=
  { id := 1
    student_id := 10
    company_id := 20
    position := some "SWE Intern"
    department := some "Engineering"
    why_internship := some "growth"
    skills_fit := none
    career_goals := none
    relevant_experience := none
    stage := st
    notes := none }

/-- Sample database: student 10 subscribed to company 20 with one
application at the given stage. -/
def sampleDB (st : String) : DB :=
  { students := [10]
    companies := [20]
    subscriptions := [(10, 20)]
    openings := []
    applications := [sampleApp st]
    requests := []
    interviews := []
    nextAppId := 2
    nextOpeningId := 1 }

/-- Sample caller: the student owning `sampleApp`. -/
def sampleStudent : User :=
  { userId := 3, role := "student", studentId := some 10, companyId := none }

/-- Sample caller: the company owning `sampleApp`. -/
def sampleCompany : User :=
  { userId := 4, role := "company", studentId := none, companyId := some 20 }

/-- C1: CreateApplication by student `sid` for company `cid` succeeds —
inserting exactly one new application row, in stage `Applied` — if and
only if a Subscription `(sid, cid)` exists and no prior application for
the pair is in stage `Rejected`; otherwise it answers 403 and leaves the
database unchanged. -/
theorem createApplication_gating (db : DB) (user : User) (b : CreateAppBody)
    (sid cid : Nat)
    (hrole : user.role = "student") (hsid : user.studentId = some sid)
    (hsid0 : sid ≠ 0) (hcid : b.company_id = some cid) (hcid0 : cid ≠ 0) :
    ((createApplication db user b).1 = Resp.ok "applied" ↔
      ((sid, cid) ∈ db.subscriptions ∧ ¬ rejectionLock db sid cid)) ∧
    (((sid, cid) ∈ db.subscriptions ∧ ¬ rejectionLock db sid cid) →
      (createApplication db user b).2.1.applications =
        db.applications ++ [newApplicationRow db sid cid b] ∧
      (newApplicationRow db sid cid b).stage = "Applied") ∧
    (¬ ((sid, cid) ∈ db.subscriptions ∧ ¬ rejectionLock db sid cid) →
      (∃ msg, (createApplication db user b).1 = Resp.err 403 msg) ∧
      (createApplication db user b).2.1 = db) := by
  have hR : ¬ user.role ≠ "student" := by simp [hrole]
  by_cases hmem : (sid, cid) ∈ db.subscriptions <;>
    by_cases hrej : rejectionLock db sid cid <;>
      simp [createApplication, newApplicationRow, hR, hsid, hcid, truthyId,
            hsid0, hcid0, hmem, hrej]

/-- Witness for `createApplication_gating` at a concrete state: student 1
is subscribed to company 2, no prior rejection, so the insert succeeds. -/
theorem createApplication_gating_witness :
    let db : DB := { students := [1], companies := [2], subscriptions := [(1, 2)],
                     openings := [], applications := [], requests := [],
                     interviews := [], nextAppId := 1, nextOpeningId := 1 }
    let user : User := { userId := 7, role := "student", studentId := some 1,
                         companyId := none }
    let b : CreateAppBody := { company_id := some 2, position := some "SWE Intern",
                               department := none, why_internship := none,
                               skills_fit := none, career_goals := none,
                               relevant_experience := none }
    (createApplication db user b).1 = Resp.ok "applied" ↔
      ((1, 2) ∈ db.subscriptions ∧ ¬ rejectionLock db 1 2) :=
  (createApplication_gating _ _ _ 1 2 rfl rfl (by decide) rfl (by decide)).1

/-- C2 counterexample: on the single application of student 10 to
company 20 in stage `Applied`, the OWNING STUDENT requests the
company-only transition `Applied → Interviewing` and the endpoint
answers 200 and persists the new stage — it does not fail with an
authorization error, and the stage changes. -/
theorem patchStatus_student_company_transition_succeeds :
    (patchApplicationStatus (sampleDB "Applied") sampleStudent 1 (some "Interviewing")).1 =
      Resp.ok "updated" ∧
    (patchApplicationStatus (sampleDB "Applied") sampleStudent 1
        (some "Interviewing")).2.1.applications = [sampleApp "Interviewing"] := by
  decide

/-- C2 amended: PATCH /api/applications/:id/status enforces no
stage-machine edge and no per-transition role rule: the only guard is
ownership (admin, the owning company, or the owning student).  Any
allowed caller — including the owning student — may set the stage to any
requested value; a non-owner gets 403 and the database is unchanged. -/
theorem patchStatus_ownership_only (db : DB) (user : User) (id : Nat)
    (s : String) (row : Application) (hs : s ≠ "")
    (hfind : db.applications.find? (fun a => a.id == id) = some row) :
    (ownsApplication user row →
      patchApplicationStatus db user id (some s) =
        (Resp.ok "updated",
         { db with applications :=
             db.applications.map (fun a => if a.id = id then { a with stage := s } else a) },
         [Event.adminChanged, Event.applicationsChanged])) ∧
    (¬ ownsApplication user row →
      patchApplicationStatus db user id (some s) = (Resp.err 403 "Forbidden", db, [])) := by
  constructor <;> intro h <;> simp [patchApplicationStatus, truthyStr, hs, hfind, h]

/-- Witness for `patchStatus_ownership_only`: the owning company rejects
the sample application and the write goes through. -/
theorem patchStatus_ownership_only_witness :
    ownsApplication sampleCompany (sampleApp "Applied") ∧
    patchApplicationStatus (sampleDB "Applied") sampleCompany 1 (some "Rejected") =
      (Resp.ok "updated",
       { (sampleDB "Applied") with applications :=
           ((sampleDB "Applied").applications.map
             (fun a => if a.id = 1 then { a with stage := "Rejected" } else a)) },
       [Event.adminChanged, Event.applicationsChanged]) :=
  ⟨by decide,
   (patchStatus_ownership_only (sampleDB "Applied") sampleCompany 1 "Rejected"
      (sampleApp "Applied") (by decide) (by decide)).1 (by decide)⟩

/-- C3 counterexample: one successful Application mutation — the owning
company moving the sample application to `Interviewing` — broadcasts TWO
events: `admin:changed` (from `logAudit`) and `applications:changed`,
refuting "exactly one broadcast event per successful mutation". -/
theorem stageChange_emits_two_events :
    (applyMutation (sampleDB "Applied")
        (.setStage sampleCompany 1 (some "Interviewing"))).1 = Resp.ok "updated" ∧
    (applyMutation (sampleDB "Applied")
        (.setStage sampleCompany 1 (some "Interviewing"))).2.2 =
      [Event.adminChanged, Event.applicationsChanged] := by
  decide

/-- C3 amended: every successful mutation to an Application,
ClarificationRequest or Opening through the modelled endpoints
broadcasts at least one and at most two events (each necessarily of the
three kinds `applications:changed`, `openings:changed`, `admin:changed`,
the only event kinds the server emits); the operations that audit-log
(stage change, partial edit, opening create) emit two. -/
theorem applyMutation_event_count (db : DB) (m : Mutation) (msg : String) :
    (applyMutation db m).1 = Resp.ok msg →
    ((applyMutation db m).2.2.length = 1 ∨ (applyMutation db m).2.2.length = 2) := by
  cases m <;>
    simp only [applyMutation, createApplication, patchApplicationStatus,
      patchApplication, sendRequest, respondToRequest, createOpening,
      deleteOpening] <;>
    (repeat' split) <;> simp

/-- Witness for `applyMutation_event_count`: the owning company sends a
clarification request, a successful ClarificationRequest mutation. -/
theorem applyMutation_event_count_witness :
    ((applyMutation (sampleDB "Applied")
        (.sendReq sampleCompany 1 (some "Please share your GPA") 5)).2.2.length = 1 ∨
     (applyMutation (sampleDB "Applied")
        (.sendReq sampleCompany 1 (some "Please share your GPA") 5)).2.2.length = 2) :=
  applyMutation_event_count (sampleDB "Applied")
    (.sendReq sampleCompany 1 (some "Please share your GPA") 5) "created" (by decide)

/-- C4 counterexample: the owning student edits an essay field of the
sample application while it is in stage `Interviewing` (not `Applied`);
the endpoint answers 200 and stores the new text instead of failing. -/
theorem essayEdit_outside_applied_succeeds :
    (patchApplication (sampleDB "Interviewing") sampleStudent 1
        { notes := none, position := none, department := none,
          why_internship := some "updated essay", skills_fit := none,
          career_goals := none, relevant_experience := none }).1 = Resp.ok "updated" ∧
    (patchApplication (sampleDB "Interviewing") sampleStudent 1
        { notes := none, position := none, department := none,
          why_internship := some "updated essay", skills_fit := none,
          career_goals := none, relevant_experience := none }).2.1.applications =
      [{ sampleApp "Interviewing" with why_internship := some "updated essay" }] := by
  decide

/-- C4 amended: PATCH /api/applications/:id never consults the stage:
the owning student may edit the essay fields in ANY stage (the stored
stage itself is never modified by the patch), and only a non-owner
student is refused with 403 and an unchanged database. -/
theorem patchApplication_ownership_only (db : DB) (user : User) (id : Nat)
    (b : PatchAppBody) (row : Application) (sid : Nat)
    (hfind : db.applications.find? (fun a => a.id == id) = some row)
    (hrole : user.role = "student") (hsid : user.studentId = some sid)
    (hsid0 : sid ≠ 0) :
    (sid = row.student_id → b.hasField →
      patchApplication db user id b =
        (Resp.ok "updated",
         { db with applications :=
             db.applications.map (fun a => if a.id = id then patchRow b a else a) },
         [Event.adminChanged, Event.applicationsChanged]) ∧
      (patchRow b row).stage = row.stage) ∧
    (sid ≠ row.student_id →
      patchApplication db user id b = (Resp.err 403 "Forbidden", db, [])) := by
  have hown : ownsApplication user row ↔ sid = row.student_id := by
    simp [ownsApplication, hrole, hsid, truthyId, hsid0]
  constructor
  · intro he hb
    refine ⟨?_, by simp [patchRow]⟩
    simp [patchApplication, hfind, hown.mpr he, hb]
  · intro hne
    have : ¬ ownsApplication user row := fun h => hne (hown.mp h)
    simp [patchApplication, hfind, this]

/-- Witness for `patchApplication_ownership_only`: the owning student
updates an essay field while the sample application is in stage
`Offer`. -/
theorem patchApplication_ownership_only_witness :
    (10 = (sampleApp "Offer").student_id ∧
      PatchAppBody.hasField
        { notes := none, position := none, department := none,
          why_internship := some "still keen", skills_fit := none,
          career_goals := none, relevant_experience := none }) ∧
    (patchApplication (sampleDB "Offer") sampleStudent 1
        { notes := none, position := none, department := none,
          why_internship := some "still keen", skills_fit := none,
          career_goals := none, relevant_experience := none } =
      (Resp.ok "updated",
       { (sampleDB "Offer") with applications :=
           ((sampleDB "Offer").applications.map
             (fun a => if a.id = 1 then
                patchRow
                  { notes := none, position := none, department := none,
                    why_internship := some "still keen", skills_fit := none,
                    career_goals := none, relevant_experience := none } a
              else a)) },
       [Event.adminChanged, Event.applicationsChanged]) ∧
      (patchRow
          { notes := none, position := none, department := none,
            why_internship := some "still keen", skills_fit := none,
            career_goals := none, relevant_experience := none }
          (sampleApp "Offer")).stage = (sampleApp "Offer").stage) :=
  ⟨⟨by decide, by decide⟩,
   (patchApplication_ownership_only (sampleDB "Offer") sampleStudent 1 _
      (sampleApp "Offer") 10 (by decide) rfl rfl (by decide)).1 (by decide) (by decide)⟩

/-- C5: the generic DELETE /api/:type/:id route is registered with no
middleware: its behaviour is identical for every caller identity
(including an unauthenticated one), it always answers 200 `Deleted`, and
it deletes the row from `students` when type = `students` and from
`companies` for every other type value. -/
theorem genericDelete_no_auth (a1 a2 : Option User) (db : DB) (ty : String) (id : Nat) :
    genericDelete a1 db ty id = genericDelete a2 db ty id ∧
    (genericDelete a1 db ty id).1 = Resp.ok "Deleted" ∧
    (genericDelete a1 db ty id).2.students =
      (if ty = "students" then db.students.filter (fun s => s ≠ id) else db.students) ∧
    (genericDelete a1 db ty id).2.companies =
      (if ty = "students" then db.companies
       else db.companies.filter (fun c => c ≠ id)) := by
  by_cases h : ty = "students" <;> simp [genericDelete, h]

/-- First-row lookup after the UPDATE run by POST /api/applications/:id/request:
overwriting request_text / clearing response_text on the rows of one
application commutes with `find?`. -/
theorem threadOf_after_send_update (l : List ClarificationRequest) (id : Nat)
    (txt : String) (now : Nat) :
    ((l.map (fun r => if r.application_id = id then
        { r with request_text := txt, response_text := none, updated_at := now }
      else r)).find? (fun r => r.application_id == id)) =
      (l.find? (fun r => r.application_id == id)).map
        (fun r => { r with request_text := txt, response_text := none,
                           updated_at := now }) := by
  induction l with
  | nil => rfl
  | cons r t ih =>
    by_cases h : r.application_id = id
    · simp [List.find?, h]
    · have hb : (r.application_id == id) = false := by simp [h]
      simp [List.find?, h, hb, ih]

/-- First-row lookup after the UPDATE run by
PATCH /api/applications/:id/request-response: writing response_text on
the rows of one application commutes with `find?`. -/
theorem threadOf_after_respond_update (l : List ClarificationRequest) (id : Nat)
    (txt : String) (now : Nat) :
    ((l.map (fun r => if r.application_id = id then
        { r with response_text := some txt, updated_at := now }
      else r)).find? (fun r => r.application_id == id)) =
      (l.find? (fun r => r.application_id == id)).map
        (fun r => { r with response_text := some txt, updated_at := now }) := by
  induction l with
  | nil => rfl
  | cons r t ih =>
    by_cases h : r.application_id = id
    · simp [List.find?, h]
    · have hb : (r.application_id == id) = false := by simp [h]
      simp [List.find?, h, hb, ih]

/-- Effects of a successful SendRequest by the owning company: the
response is a 200, the thread row for the application now holds the new
request text with a cleared (NULL) response and the new timestamp, the
applications table is untouched and exactly `applications:changed` is
broadcast — in both the create and the overwrite branch. -/
theorem sendRequest_owner_effects (db : DB) (user : User) (id : Nat)
    (txt : String) (now : Nat) (appRow : Application)
    (htxt : txt ≠ "")
    (hfind : db.applications.find? (fun a => a.id == id) = some appRow)
    (hrole : user.role = "company")
    (hcid : user.companyId = some appRow.company_id)
    (hc0 : appRow.company_id ≠ 0) :
    (∃ msg, (sendRequest db user id (some txt) now).1 = Resp.ok msg) ∧
    threadOf (sendRequest db user id (some txt) now).2.1 id =
      some { application_id := id, request_text := txt,
             response_text := none, updated_at := now } ∧
    (sendRequest db user id (some txt) now).2.1.applications = db.applications ∧
    (sendRequest db user id (some txt) now).2.2 = [Event.applicationsChanged] := by
  have hallow : user.role = "admin" ∨
      (user.role = "company" ∧ truthyId user.companyId ∧
        user.companyId = some appRow.company_id) :=
    Or.inr ⟨hrole, by simp [truthyId, hcid, hc0], hcid⟩
  cases hth : List.find? (fun r => r.application_id == id) db.requests with
  | none =>
    have hsend : sendRequest db user id (some txt) now =
        (Resp.ok "created",
         { db with requests := db.requests ++
             [{ application_id := id, request_text := txt,
                response_text := none, updated_at := now }] },
         [Event.applicationsChanged]) := by
      simp [sendRequest, truthyStr, htxt, hrole, hcid, truthyId, hc0,
            hfind, threadOf, hth]
    rw [hsend]
    refine ⟨⟨"created", rfl⟩, ?_, rfl, rfl⟩
    rw [threadOf]
    simp [List.find?_append, hth, List.find?]
  | some rq =>
    have hid : rq.application_id = id := by
      have := List.find?_some hth
      simpa using this
    have hsend : sendRequest db user id (some txt) now =
        (Resp.ok "updated",
         { db with requests := db.requests.map (fun r =>
             if r.application_id = id then
               { r with request_text := txt, response_text := none, updated_at := now }
             else r) },
         [Event.applicationsChanged]) := by
      simp [sendRequest, truthyStr, htxt, hrole, hcid, truthyId, hc0,
            hfind, threadOf, hth]
    rw [hsend]
    refine ⟨⟨"updated", rfl⟩, ?_, rfl, rfl⟩
    rw [threadOf, threadOf_after_send_update, hth]
    simp [hid]

/-- Effects of a successful RespondToRequest by the owning student on an
existing thread row: the response text and timestamp are written, the
applications table is untouched and exactly `applications:changed` is
broadcast. -/
theorem respondToRequest_owner_effects (db : DB) (user : User) (id : Nat)
    (txt : String) (now : Nat) (appRow : Application) (rq : ClarificationRequest)
    (htxt : txt ≠ "")
    (hfind : db.applications.find? (fun a => a.id == id) = some appRow)
    (hrole : user.role = "student")
    (hsid : user.studentId = some appRow.student_id)
    (hs0 : appRow.student_id ≠ 0)
    (hth : threadOf db id = some rq) :
    (respondToRequest db user id (some txt) now).1 = Resp.ok "updated" ∧
    threadOf (respondToRequest db user id (some txt) now).2.1 id =
      some { rq with response_text := some txt, updated_at := now } ∧
    (respondToRequest db user id (some txt) now).2.1.applications = db.applications ∧
    (respondToRequest db user id (some txt) now).2.2 = [Event.applicationsChanged] := by
  rw [threadOf] at hth
  have hresp : respondToRequest db user id (some txt) now =
      (Resp.ok "updated",
       { db with requests := db.requests.map (fun r =>
           if r.application_id = id then
             { r with response_text := some txt, updated_at := now }
           else r) },
       [Event.applicationsChanged]) := by
    simp [respondToRequest, truthyStr, htxt, hrole, truthyId, hsid, hs0,
          hfind, threadOf, hth]
  rw [hresp]
  exact ⟨rfl, by rw [threadOf, threadOf_after_respond_update, hth]; rfl, rfl, rfl⟩

/-- C6: SendRequest by the owning company creates or overwrites the
application thread with the new request text, NULL response and bumped
timestamp; after SendRequest, RespondToRequest, then a second
SendRequest the thread holds the second request text with a NULL
response; and a company that does not own the application gets 403 with
the database unchanged. -/
theorem sendRequest_spec (db : DB) (comp stud : User) (id : Nat)
    (r1 t r2 : String) (n1 n2 n3 : Nat) (appRow : Application)
    (hr1 : r1 ≠ "") (ht : t ≠ "") (hr2 : r2 ≠ "")
    (hfind : db.applications.find? (fun a => a.id == id) = some appRow)
    (hcrole : comp.role = "company")
    (hccid : comp.companyId = some appRow.company_id)
    (hc0 : appRow.company_id ≠ 0)
    (hsrole : stud.role = "student")
    (hssid : stud.studentId = some appRow.student_id)
    (hs0 : appRow.student_id ≠ 0) :
    ((∃ msg, (sendRequest db comp id (some r1) n1).1 = Resp.ok msg) ∧
     threadOf (sendRequest db comp id (some r1) n1).2.1 id =
       some { application_id := id, request_text := r1,
              response_text := none, updated_at := n1 }) ∧
    (threadOf (sendRequest
        (respondToRequest (sendRequest db comp id (some r1) n1).2.1
          stud id (some t) n2).2.1
        comp id (some r2) n3).2.1 id =
      some { application_id := id, request_text := r2,
             response_text := none, updated_at := n3 }) ∧
    (∀ u : User, u.role = "company" → u.companyId ≠ some appRow.company_id →
      sendRequest db u id (some r1) n1 = (Resp.err 403 "Forbidden", db, [])) := by
  obtain ⟨ha1, ha2, ha3, -⟩ :=
    sendRequest_owner_effects db comp id r1 n1 appRow hr1 hfind hcrole hccid hc0
  have hfind1 : (sendRequest db comp id (some r1) n1).2.1.applications.find?
      (fun a => a.id == id) = some appRow := by rw [ha3]; exact hfind
  obtain ⟨hb1, hb2, hb3, -⟩ :=
    respondToRequest_owner_effects (sendRequest db comp id (some r1) n1).2.1
      stud id t n2 appRow
      { application_id := id, request_text := r1,
        response_text := none, updated_at := n1 }
      ht hfind1 hsrole hssid hs0 ha2
  have hfind2 : (respondToRequest (sendRequest db comp id (some r1) n1).2.1
      stud id (some t) n2).2.1.applications.find?
      (fun a => a.id == id) = some appRow := by rw [hb3]; exact hfind1
  obtain ⟨-, hc2, -, -⟩ :=
    sendRequest_owner_effects
      (respondToRequest (sendRequest db comp id (some r1) n1).2.1
        stud id (some t) n2).2.1
      comp id r2 n3 appRow hr2 hfind2 hcrole hccid hc0
  refine ⟨⟨ha1, ha2⟩, hc2, ?_⟩
  intro u hurole hune
  have hnallow : ¬ (u.role = "admin" ∨
      (u.role = "company" ∧ truthyId u.companyId ∧
        u.companyId = some appRow.company_id)) := by
    rintro (h | ⟨-, -, h⟩)
    · rw [hurole] at h
      exact absurd h (by decide)
    · exact hune h
  simp [sendRequest, truthyStr, hr1, hurole, hfind, hnallow]
  intro h1 h2
  exact absurd h2 hune

/-- Witness for `sendRequest_spec`: on the sample database, the owning
company asks for the GPA, the student answers, the company asks for the
transcript — the thread then holds the second request with no
response. -/
theorem sendRequest_spec_witness :
    threadOf (sendRequest
        (respondToRequest (sendRequest (sampleDB "Applied") sampleCompany 1
            (some "Please share your GPA") 1).2.1
          sampleStudent 1 (some "3.8 out of 4.0") 2).2.1
        sampleCompany 1 (some "Also share transcript") 3).2.1 1 =
      some { application_id := 1, request_text := "Also share transcript",
             response_text := none, updated_at := 3 } :=
  (sendRequest_spec (sampleDB "Applied") sampleCompany sampleStudent 1
      "Please share your GPA" "3.8 out of 4.0" "Also share transcript" 1 2 3
      (sampleApp "Applied") (by decide) (by decide) (by decide) (by decide)
      rfl rfl (by decide) rfl rfl (by decide)).2.1

/-- C7: RespondToRequest succeeds — writing response_text — exactly when
the calling student owns the application and a thread row (whose
request_text is always a non-null string in this model, as every writer
supplies one) exists; a non-owner gets 403 and a missing thread row gets
404, in both cases leaving the database unchanged. -/
theorem respondToRequest_spec (db : DB) (user : User) (id : Nat) (txt : String)
    (now : Nat) (appRow : Application) (sid : Nat)
    (htxt : txt ≠ "")
    (hfind : db.applications.find? (fun a => a.id == id) = some appRow)
    (hrole : user.role = "student") (hsid : user.studentId = some sid)
    (hs0 : sid ≠ 0) :
    (∀ rq, sid = appRow.student_id → threadOf db id = some rq →
      (respondToRequest db user id (some txt) now).1 = Resp.ok "updated" ∧
      threadOf (respondToRequest db user id (some txt) now).2.1 id =
        some { rq with response_text := some txt, updated_at := now }) ∧
    (sid ≠ appRow.student_id →
      respondToRequest db user id (some txt) now =
        (Resp.err 403 "Forbidden", db, [])) ∧
    (sid = appRow.student_id → threadOf db id = none →
      respondToRequest db user id (some txt) now =
        (Resp.err 404 "Request not found", db, [])) := by
  refine ⟨?_, ?_, ?_⟩
  · intro rq he hth
    obtain ⟨h1, h2, -, -⟩ :=
      respondToRequest_owner_effects db user id txt now appRow rq htxt hfind
        hrole (he ▸ hsid) (he ▸ hs0) hth
    exact ⟨h1, h2⟩
  · intro hne
    simp [respondToRequest, truthyStr, htxt, hrole, truthyId, hsid, hs0, hfind]
    intro h
    exact absurd h hne
  · intro he hth
    subst he
    rw [threadOf] at hth
    simp [respondToRequest, truthyStr, htxt, hrole, truthyId, hsid, hs0,
          hfind, threadOf, hth]

/-- Witness for `respondToRequest_spec`: the owning student answers the
pending GPA request on the sample database. -/
theorem respondToRequest_spec_witness :
    (respondToRequest
        { (sampleDB "Applied") with requests :=
            [{ application_id := 1, request_text := "Please share your GPA",
               response_text := none, updated_at := 1 }] }
        sampleStudent 1 (some "3.8 out of 4.0") 2).1 = Resp.ok "updated" ∧
    threadOf (respondToRequest
        { (sampleDB "Applied") with requests :=
            [{ application_id := 1, request_text := "Please share your GPA",
               response_text := none, updated_at := 1 }] }
        sampleStudent 1 (some "3.8 out of 4.0") 2).2.1 1 =
      some { application_id := 1, request_text := "Please share your GPA",
             response_text := some "3.8 out of 4.0", updated_at := 2 } :=
  (respondToRequest_spec
      { (sampleDB "Applied") with requests :=
          [{ application_id := 1, request_text := "Please share your GPA",
             response_text := none, updated_at := 1 }] }
      sampleStudent 1 "3.8 out of 4.0" 2 (sampleApp "Applied") 10
      (by decide) (by decide) rfl rfl (by decide)).1
    { application_id := 1, request_text := "Please share your GPA",
      response_text := none, updated_at := 1 }
    (by decide) (by decide)

/-- C8: Subscribe is idempotent — starting from a state respecting the
UNIQUE(student_id, company_id) index (at most one row for the pair), two
Subscribe calls leave exactly one row for (sid, cid) — and Unsubscribe
on a non-existent row succeeds with a 200 no-op instead of an error. -/
theorem subscribe_idempotent (db : DB) (user : User) (sid cid : Nat)
    (hrole : user.role = "student") (hsid : user.studentId = some sid)
    (hs0 : sid ≠ 0) (hc0 : cid ≠ 0)
    (huniq : db.subscriptions.count (sid, cid) ≤ 1) :
    ((subscribe (subscribe db user (some cid)).2.1 user
        (some cid)).2.1.subscriptions.count (sid, cid) = 1) ∧
    ((sid, cid) ∉ db.subscriptions →
      unsubscribe db user cid = (Resp.ok "unsubscribed", db, [Event.adminChanged])) := by
  constructor
  · by_cases hmem : (sid, cid) ∈ db.subscriptions
    · have h2 : (subscribe (subscribe db user (some cid)).2.1 user
          (some cid)).2.1.subscriptions = db.subscriptions := by
        simp [subscribe, hrole, hsid, truthyId, hs0, hc0, hmem]
      rw [h2]
      have hpos : 0 < db.subscriptions.count (sid, cid) :=
        List.count_pos_iff.mpr hmem
      omega
    · have h2 : (subscribe (subscribe db user (some cid)).2.1 user
          (some cid)).2.1.subscriptions = db.subscriptions ++ [(sid, cid)] := by
        simp [subscribe, hrole, hsid, truthyId, hs0, hc0, hmem]
      rw [h2, List.count_append]
      rw [List.count_eq_zero.mpr hmem]
      simp
  · intro hmem
    have hfil : db.subscriptions.filter
        (fun p => ¬ (p.1 = sid ∧ p.2 = cid)) = db.subscriptions := by
      rw [List.filter_eq_self]
      intro p hp
      simp only [decide_eq_true_eq]
      rintro ⟨h1, h2⟩
      exact hmem (by rw [← h1, ← h2]; exact hp)
    have h1 : unsubscribe db user cid =
        (Resp.ok "unsubscribed",
         { db with subscriptions :=
             (db.subscriptions.filter (fun p => ¬ (p.1 = sid ∧ p.2 = cid))) },
         [Event.adminChanged]) := by
      simp [unsubscribe, hrole, hsid, truthyId, hs0]
    rw [h1, hfil]

/-- Witness for `subscribe_idempotent`: student 10 subscribes twice to
company 30 starting from the sample database, which has no (10, 30)
row. -/
theorem subscribe_idempotent_witness :
    (subscribe (subscribe (sampleDB "Applied") sampleStudent (some 30)).2.1
        sampleStudent (some 30)).2.1.subscriptions.count (10, 30) = 1 :=
  (subscribe_idempotent (sampleDB "Applied") sampleStudent 10 30 rfl rfl
      (by decide) (by decide) (by decide)).1

/-- C9: GET /api/openings with a student identity returns exactly the
openings whose company exists and is one the student is subscribed to:
membership in the result is equivalent to membership in the openings
table plus a subscription for the opening's company, so no opening of an
unsubscribed company ever appears. -/
theorem listOpenings_subscribed_only (db : DB) (user : User) (sid : Nat)
    (hrole : user.role = "student") (hsid : user.studentId = some sid)
    (hs0 : sid ≠ 0) :
    (listOpenings db user).1 = Resp.ok "openings" ∧
    ∀ o : Opening, o ∈ (listOpenings db user).2 ↔
      (o ∈ db.openings ∧ o.company_id ∈ db.companies ∧
        (sid, o.company_id) ∈ db.subscriptions) := by
  constructor
  · simp [listOpenings, hrole, hsid, truthyId, hs0]
  · intro o
    simp [listOpenings, hrole, hsid, truthyId, hs0, List.mem_filter, and_assoc]

/-- Witness for `listOpenings_subscribed_only`: on the sample database
the student sees no opening (the openings table is empty), and the
equivalence holds. -/
theorem listOpenings_subscribed_only_witness :
    (listOpenings (sampleDB "Applied") sampleStudent).1 = Resp.ok "openings" :=
  (listOpenings_subscribed_only (sampleDB "Applied") sampleStudent 10 rfl rfl
      (by decide)).1

/-- C10: Unsubscribe never touches the applications, interviews, openings
or requests tables — in every branch of the handler — and, for a linked
student caller, removes exactly the subscription rows for (sid, cid). -/
theorem unsubscribe_frame (db : DB) (user : User) (cid : Nat) :
    ((unsubscribe db user cid).2.1.applications = db.applications ∧
     (unsubscribe db user cid).2.1.interviews = db.interviews ∧
     (unsubscribe db user cid).2.1.openings = db.openings ∧
     (unsubscribe db user cid).2.1.requests = db.requests) ∧
    (∀ sid, user.role = "student" → user.studentId = some sid → sid ≠ 0 →
      (unsubscribe db user cid).2.1.subscriptions =
        db.subscriptions.filter (fun p => ¬ (p.1 = sid ∧ p.2 = cid))) := by
  constructor
  · unfold unsubscribe
    split_ifs <;> simp
  · intro sid hrole hsid hs0
    simp [unsubscribe, hrole, hsid, truthyId, hs0]

/-- Witness for `unsubscribe_frame`: student 10 unsubscribes from
company 20 on the sample database; the applications table survives. -/
theorem unsubscribe_frame_witness :
    (unsubscribe (sampleDB "Applied") sampleStudent 20).2.1.subscriptions =
      (sampleDB "Applied").subscriptions.filter
        (fun p => ¬ (p.1 = 10 ∧ p.2 = 20)) :=
  (unsubscribe_frame (sampleDB "Applied") sampleStudent 20).2 10 rfl rfl (by decide)

end InternshipTracker






